import Mathlib

/-!
Shallow embedding of the lexical retriever in `src/code/rag_demo.py`
(`class StudentRAG`) and proofs about it.

Modelling conventions:
* Python strings are modelled as `List Char` (a Python `str` is a sequence of
  code points); concrete strings are written `"...".toList`.
* The float `relevance_score` is modelled as a rational number `ℚ`; within one
  query all scores share the denominator `len(query_words)`, so rational
  comparison agrees with the float comparison performed by `list.sort`.
* `datetime.now()` (the `added_at` field) is real time and is omitted from the
  `Document` model; no claim refers to it.
* Python's `list.sort(key=..., reverse=True)` is a stable descending sort; it
  is modelled by `List.insertionSort` with relation `b.score ≤ a.score`, which
  places an earlier-inserted element before later equal-score elements.
* Console printing is ignored; each method's returned value and state effect
  are modelled.
-/

namespace RagDemo

/-- Python `str.lower()` applied to a `List Char` text. -/
def lowerStr (s : List Char) : List Char := s.map Char.toLower

/-- Python's substring test `needle in hay`. -/
def substrB (needle : List Char) : List Char → Bool
  | [] => needle.isEmpty
  | c :: t => needle.isPrefixOf (c :: t) || substrB needle t

/-- Python `str.split()` with no argument: split on whitespace runs,
discarding empty pieces. -/
def splitWs (s : List Char) : List (List Char) :=
  (List.splitOnP Char.isWhitespace s).filter (fun w => !w.isEmpty)

/-- Python `content.split('. ')`: split on the literal two-character
separator period-space, keeping empty pieces, scanning left to right. -/
def splitDotSpace : List Char → List (List Char)
  | '.' :: ' ' :: rest => [] :: splitDotSpace rest
  | c :: rest =>
    match splitDotSpace rest with
    | [] => [[c]]
    | t :: ts => (c :: t) :: ts
  | [] => [[]]

/-- Python `str.strip()`: drop whitespace from both ends. -/
def stripChars (s : List Char) : List Char :=
  ((s.dropWhile Char.isWhitespace).reverse.dropWhile Char.isWhitespace).reverse

/-- The tokenisation `query.lower().split()` used by both `simple_search`
and `generate_answer`. -/
def queryWords (query : List Char) : List (List Char) :=
  splitWs (lowerStr query)

/-- A document of the knowledge base (`rag_demo.py`, `add_document`).
The `added_at` timestamp is omitted (real time, referenced by no claim). -/
structure Document where
  id : Nat
  title : List Char
  content : List Char
  category : List Char
  word_count : Nat
deriving DecidableEq

/-- One entry of the list returned by `simple_search`. -/
structure SearchResult where
  document : Document
  relevance_score : ℚ
  matched_words : List (List Char)
  match_count : Nat
deriving DecidableEq

/-- The text a document is matched against:
`(doc["title"] + " " + doc["content"]).lower()`. -/
def doc_text (doc : Document) : List Char :=
  lowerStr (doc.title ++ [' '] ++ doc.content)

/-- The per-document body of the loop in `simple_search` (lines 69-90 of
`rag_demo.py`): collect the query words occurring in `doc_text`, count them,
and compute `matches / len(query_words) if query_words else 0`.
`mkRat m n` is exact rational division (and `0` when `n = 0`, which the
guard makes unreachable). -/
def scoreDoc (query_words : List (List Char)) (doc : Document) : SearchResult :=
  let matched_words := query_words.filter (fun w => substrB w (doc_text doc))
  { document := doc
    relevance_score :=
      if query_words.isEmpty then 0 else mkRat matched_words.length query_words.length
    matched_words := matched_words
    match_count := matched_words.length }

/-- The comparison used to model `results.sort(key=lambda x:
x["relevance_score"], reverse=True)`: descending by score. -/
def scoreGE (a b : SearchResult) : Prop :=
  b.relevance_score ≤ a.relevance_score

instance : DecidableRel scoreGE := fun a b =>
  inferInstanceAs (Decidable (b.relevance_score ≤ a.relevance_score))

/-- `StudentRAG.simple_search(query, max_results)` (lines 56-108): score every
document, keep those with at least one match, sort stably by descending
relevance, return the first `max_results`. -/
def simple_search (kb : List Document) (query : List Char) (max_results : Nat) :
    List SearchResult :=
  let query_words := queryWords query
  let results := (kb.map (scoreDoc query_words)).filter (fun r => 0 < r.match_count)
  (List.insertionSort scoreGE results).take max_results

/-- Fixed message returned by `generate_answer` when `search_results` is empty. -/
def notFoundMsg : List Char :=
  "❌ Sorry, I couldn\x27t find any relevant information in my knowledge base.".toList

/-- Fixed message returned by `generate_answer` when no sentence matched. -/
def insufficientMsg : List Char :=
  "I found relevant documents but couldn\x27t extract a specific answer. Please try rephrasing your question.".toList

/-- The per-document sentence extraction of `generate_answer` (lines 129-143):
split the content on `'. '`, keep sentences whose lower-casing contains some
query word, strip each, and take the first, if any. -/
def firstRelevantSentence (query_words : List (List Char)) (content : List Char) :
    Option (List Char) :=
  let sentences := splitDotSpace content
  let relevant := sentences.filter (fun s => query_words.any (fun w => substrB w (lowerStr s)))
  (relevant.map stripChars).head?

/-- `StudentRAG.generate_answer(query, search_results)` (lines 110-157). The
Python loop pushes, for each result whose content has a relevant sentence, the
first such sentence onto `answer_parts` and the title onto `sources_used`;
that tandem accumulation is the `filterMap` over pairs below. -/
def generate_answer (query : List Char) (search_results : List SearchResult) :
    List Char :=
  if search_results.isEmpty then notFoundMsg
  else
    let query_words := queryWords query
    let contributions := search_results.filterMap (fun r =>
      (firstRelevantSentence query_words r.document.content).map
        (fun s => (s, r.document.title)))
    let answer_parts := contributions.map Prod.fst
    let sources_used := contributions.map Prod.snd
    if answer_parts.isEmpty then insufficientMsg
    else
      let answer := "Based on my knowledge base: ".toList ++
        List.intercalate [' '] answer_parts
      let answer := if answer.getLast? = some '.' then answer else answer ++ ['.']
      answer ++ "\n\n📚 Sources: ".toList ++ List.intercalate (", ".toList) sources_used

/-- Fixed answer of `ask_question` when the search finds nothing. -/
def noDocsMsg : List Char := "No relevant documents found.".toList

/-- The dictionary returned by `StudentRAG.ask_question`. In the no-result
branch the Python dict has no `search_results` key; this is modelled by
`search_results := none`. -/
structure AskResult where
  question : List Char
  answer : List Char
  sources : List (List Char)
  search_results : Option (List SearchResult)
  success : Bool
deriving DecidableEq

/-- `StudentRAG.ask_question(question)` (lines 159-207): search with
`max_results=3`, then either the fixed failure dict or the generated answer
packaged with the retrieved documents' titles. -/
def ask_question (kb : List Document) (question : List Char) : AskResult :=
  let search_results := simple_search kb question 3
  if search_results.isEmpty then
    { question := question, answer := noDocsMsg, sources := [],
      search_results := none, success := false }
  else
    let context_docs := search_results.map (fun r => r.document)
    { question := question
      answer := generate_answer question search_results
      sources := context_docs.map (fun d => d.title)
      search_results := some search_results
      success := true }

/-- The mutable state of a `StudentRAG` instance. -/
structure StudentRAG where
  knowledge_base : List Document
  document_count : Nat
deriving DecidableEq

/-- `StudentRAG.__init__`: empty knowledge base, zero count. -/
def initRAG : StudentRAG := { knowledge_base := [], document_count := 0 }

/-- `StudentRAG.add_document(title, content, category)` (lines 37-54):
append a document whose id is the current count and whose word count is
`len(content.split())`; returns the new state and the assigned id. -/
def add_document (s : StudentRAG) (title content category : List Char) :
    StudentRAG × Nat :=
  let doc_id := s.document_count
  let doc : Document :=
    { id := doc_id, title := title, content := content, category := category,
      word_count := (splitWs content).length }
  ({ knowledge_base := s.knowledge_base ++ [doc],
     document_count := s.document_count + 1 }, doc_id)

/-- `simple_search` as a state transformer: the method reads
`self.knowledge_base` and performs no assignment to `self`. -/
def searchOp (s : StudentRAG) (query : List Char) (max_results : Nat) :
    StudentRAG × List SearchResult :=
  (s, simple_search s.knowledge_base query max_results)

/-- `generate_answer` as a state transformer: the method reads no field of
`self` and performs no assignment to `self`. -/
def generateOp (s : StudentRAG) (query : List Char) (rs : List SearchResult) :
    StudentRAG × List Char :=
  (s, generate_answer query rs)

/-- Iterated `add_document` calls, for stating knowledge-base invariants. -/
def addAll (s : StudentRAG) : List (List Char × List Char × List Char) → StudentRAG
  | [] => s
  | (t, c, g) :: rest => addAll (add_document s t c g).1 rest

/-! Spec-side definitions, written from the specification's words (section 4.1
of the spec, `generate_answer`), to be compared against the code's
`generate_answer`: "for each search result in ranked order ... find the first
sentence containing at least one query term ... concatenate all contributing
fragments in ranked order with single-space separation; terminate with a
period if not already present ... append a sources line listing the titles of
documents that contributed a fragment". -/

/-- Spec wording: the contributing fragment of each search result in ranked
order — the first sentence of its content containing a query term. -/
def answer_fragments (query : List Char) (rs : List SearchResult) : List (List Char) :=
  rs.filterMap (fun r => firstRelevantSentence (queryWords query) r.document.content)

/-- Spec wording: the titles of the documents that contributed a fragment,
in ranked order. -/
def answer_sources (query : List Char) (rs : List SearchResult) : List (List Char) :=
  (rs.filter (fun r => (firstRelevantSentence (queryWords query) r.document.content).isSome)).map
    (fun r => r.document.title)

/-- Spec wording: the fragments joined with single spaces after the fixed
preamble. -/
def answer_body (query : List Char) (rs : List SearchResult) : List Char :=
  "Based on my knowledge base: ".toList ++
    List.intercalate [' '] (answer_fragments query rs)

/-- Spec wording: the full synthesized answer — body, terminated with a
period if not already present, followed by the sources line. -/
def assembled_answer (query : List Char) (rs : List SearchResult) : List Char :=
  (if (answer_body query rs).getLast? = some '.' then answer_body query rs
   else answer_body query rs ++ ['.']) ++
    ("\n\n📚 Sources: ".toList ++ List.intercalate (", ".toList) (answer_sources query rs))

/-! Concrete documents used by the scenario claims. -/

/-- Doc A of the two-document scenario (spec section 8). Inserted first, so
its id is 0; its content has 7 whitespace-delimited tokens. -/
def docA : Document :=
  { id := 0, title := "Python Basics".toList,
    content := "Python is a language. It is easy.".toList,
    category := "general".toList, word_count := 7 }

/-- Doc B of the two-document scenario (spec section 8). Inserted second, so
its id is 1; its content has 6 whitespace-delimited tokens. -/
def docB : Document :=
  { id := 1, title := "Snakes".toList,
    content := "Pythons are snakes found in forests.".toList,
    category := "general".toList, word_count := 6 }

/-- The state reached from a fresh retriever by inserting Doc A then Doc B. -/
def ragAB : StudentRAG :=
  (add_document
    (add_document initRAG "Python Basics".toList
      "Python is a language. It is easy.".toList "general".toList).1
    "Snakes".toList "Pythons are snakes found in forests.".toList
    "general".toList).1

/-- The two-document knowledge base of the scenario claims. -/
def kbAB : List Document := [docA, docB]

/-- A document whose title matches the query "python" but whose content has
no sentence containing it: retrieved by `simple_search`, yet contributing no
fragment to `generate_answer`. -/
def docT : Document :=
  { id := 0, title := "python".toList, content := "snakes are cool".toList,
    category := "general".toList, word_count := 3 }

/-- A document matching the query term "ap" in its title. -/
def exDoc0 : Document :=
  { id := 0, title := "apple".toList, content := "fruit".toList,
    category := "general".toList, word_count := 1 }

/-- A second document matching the query term "ap" in its title. -/
def exDoc1 : Document :=
  { id := 1, title := "apricot".toList, content := "fruit".toList,
    category := "general".toList, word_count := 1 }

/-! Helper lemmas about `simple_search`. -/

/-- The `document` field of a scored result is the scored document. -/
theorem scoreDoc_document (qw : List (List Char)) (d : Document) :
    (scoreDoc qw d).document = d := rfl

/-- The `matched_words` field is the filter of the query words occurring in
the document text. -/
theorem scoreDoc_matched_words (qw : List (List Char)) (d : Document) :
    (scoreDoc qw d).matched_words = qw.filter (fun w => substrB w (doc_text d)) := rfl

/-- The `match_count` field is the length of `matched_words`. -/
theorem scoreDoc_match_count (qw : List (List Char)) (d : Document) :
    (scoreDoc qw d).match_count = (scoreDoc qw d).matched_words.length := rfl

/-- With at least one query word, the relevance score is the exact quotient
of the match count by the number of query words. -/
theorem scoreDoc_relevance (qw : List (List Char)) (d : Document) (h : qw ≠ []) :
    (scoreDoc qw d).relevance_score =
      ((scoreDoc qw d).match_count : ℚ) / (qw.length : ℚ) := by
  show (if qw.isEmpty then (0 : ℚ)
    else mkRat (qw.filter (fun w => substrB w (doc_text d))).length qw.length) = _
  rw [if_neg (by simp [h]), Rat.mkRat_eq_div]
  norm_num
  rfl

/-- A positive match count means some query word occurs in the document text. -/
theorem scoreDoc_match_count_pos_iff (qw : List (List Char)) (d : Document) :
    0 < (scoreDoc qw d).match_count ↔ ∃ w ∈ qw, substrB w (doc_text d) = true := by
  show 0 < (qw.filter (fun w => substrB w (doc_text d))).length ↔ _
  rw [List.length_pos_iff_exists_mem]
  constructor
  · rintro ⟨w, hw⟩
    obtain ⟨h1, h2⟩ := List.mem_filter.mp hw
    exact ⟨w, h1, h2⟩
  · rintro ⟨w, h1, h2⟩
    exact ⟨w, List.mem_filter.mpr ⟨h1, h2⟩⟩

/-- A result with a positive match count can only arise from a non-empty
query word list. -/
theorem ne_nil_of_match_count_pos {qw : List (List Char)} {d : Document}
    (h : 0 < (scoreDoc qw d).match_count) : qw ≠ [] := by
  rintro rfl
  exact absurd h (lt_irrefl 0)

/-- Every result returned by `simple_search` is the scoring of some document
of the knowledge base with at least one match. -/
theorem mem_simple_search {kb : List Document} {q : List Char} {n : Nat}
    {r : SearchResult} (hr : r ∈ simple_search kb q n) :
    ∃ d ∈ kb, r = scoreDoc (queryWords q) d ∧ 0 < r.match_count := by
  simp only [simple_search] at hr
  have h1 := List.mem_of_mem_take hr
  have h2 := (List.perm_insertionSort scoreGE _).mem_iff.mp h1
  obtain ⟨h3, h4⟩ := List.mem_filter.mp h2
  obtain ⟨d, hd, rfl⟩ := List.mem_map.mp h3
  exact ⟨d, hd, rfl, by simpa using h4⟩

instance : IsTotal SearchResult scoreGE :=
  ⟨fun a b => le_total b.relevance_score a.relevance_score⟩

instance : IsTrans SearchResult scoreGE :=
  ⟨fun _ _ _ hab hbc => le_trans hbc hab⟩

/-- The returned results are sorted by non-increasing relevance score. -/
theorem simple_search_sorted (kb : List Document) (q : List Char) (n : Nat) :
    (simple_search kb q n).Pairwise scoreGE := by
  simp only [simple_search]
  exact List.Pairwise.sublist (List.take_sublist _ _)
    (List.sorted_insertionSort scoreGE _)

/-- At most `max_results` results are returned. -/
theorem simple_search_length_le (kb : List Document) (q : List Char) (n : Nat) :
    (simple_search kb q n).length ≤ n := by
  simp only [simple_search]
  exact List.length_take_le _ _

/-- Inserting into a list keeps exactly the elements of any fixed score in
place relative to each other: filtering the insertion by a score equal to the
inserted element's puts that element first, because every element the
insertion skips has a strictly larger score. -/
theorem filter_score_orderedInsert (s : ℚ) (x : SearchResult)
    (l : List SearchResult) :
    (List.orderedInsert scoreGE x l).filter (fun r => r.relevance_score = s) =
      if x.relevance_score = s
      then x :: l.filter (fun r => r.relevance_score = s)
      else l.filter (fun r => r.relevance_score = s) := by
  rw [List.orderedInsert_eq_take_drop, List.filter_append]
  have hl : l.filter (fun r => r.relevance_score = s) =
      (l.takeWhile (fun b => decide ¬scoreGE x b)).filter
        (fun r => r.relevance_score = s) ++
      (l.dropWhile (fun b => decide ¬scoreGE x b)).filter
        (fun r => r.relevance_score = s) := by
    rw [← List.filter_append, List.takeWhile_append_dropWhile]
  by_cases hx : x.relevance_score = s
  · have ht : (l.takeWhile (fun b => decide ¬scoreGE x b)).filter
        (fun r => r.relevance_score = s) = [] := by
      rw [List.filter_eq_nil_iff]
      intro a ha
      have h1 : ¬ scoreGE x a := by simpa using List.mem_takeWhile_imp ha
      have h2 : x.relevance_score < a.relevance_score := by
        simpa [scoreGE] using h1
      simp only [decide_eq_true_eq]
      intro hs
      rw [hs, ← hx] at h2
      exact lt_irrefl _ h2
    rw [if_pos hx, hl, ht, List.nil_append, List.nil_append,
      List.filter_cons_of_pos (by simpa using hx)]
  · rw [if_neg hx, hl, List.filter_cons_of_neg (by simpa using hx)]

/-- Stability of the modelled sort: filtering the sorted list by any single
score value gives exactly the same sequence as filtering the unsorted list. -/
theorem filter_score_insertionSort (s : ℚ) (l : List SearchResult) :
    (List.insertionSort scoreGE l).filter (fun r => r.relevance_score = s) =
      l.filter (fun r => r.relevance_score = s) := by
  induction l with
  | nil => rfl
  | cons x xs ih =>
    simp only [List.insertionSort, filter_score_orderedInsert, ih]
    by_cases hx : x.relevance_score = s
    · rw [if_pos hx, List.filter_cons_of_pos (by simpa using hx)]
    · rw [if_neg hx, List.filter_cons_of_neg (by simpa using hx)]

/-- Results of equal score are returned in knowledge-base (insertion) order:
the documents of any fixed score form a subsequence of the knowledge base. -/
theorem simple_search_stable (kb : List Document) (q : List Char) (n : Nat)
    (s : ℚ) :
    (((simple_search kb q n).filter (fun r => r.relevance_score = s)).map
      (fun r => r.document)).Sublist kb := by
  have h1 : ((simple_search kb q n).filter
      (fun r => r.relevance_score = s)).Sublist
      (kb.map (scoreDoc (queryWords q))) := by
    simp only [simple_search]
    have ht := List.Sublist.filter (fun r => decide (r.relevance_score = s))
      (List.take_sublist n (List.insertionSort scoreGE
        ((kb.map (scoreDoc (queryWords q))).filter
          (fun r => decide (0 < r.match_count)))))
    rw [filter_score_insertionSort] at ht
    exact (ht.trans (List.filter_sublist _)).trans (List.filter_sublist _)
  have h2 := h1.map (fun r => r.document)
  rw [List.map_map] at h2
  have h3 : ((fun r : SearchResult => r.document) ∘ scoreDoc (queryWords q)) =
      fun d : Document => d := by
    funext d
    rfl
  rw [h3] at h2
  simpa using h2

/-- Without truncation (the number of matching documents is at most
`max_results`), every matching document's scored result is returned. -/
theorem mem_simple_search_of_match {kb : List Document} {q : List Char}
    {n : Nat} {d : Document}
    (hle : ((kb.map (scoreDoc (queryWords q))).filter
      (fun r => 0 < r.match_count)).length ≤ n)
    (hd : d ∈ kb) (hm : 0 < (scoreDoc (queryWords q) d).match_count) :
    scoreDoc (queryWords q) d ∈ simple_search kb q n := by
  simp only [simple_search]
  have hmem : scoreDoc (queryWords q) d ∈
      (kb.map (scoreDoc (queryWords q))).filter (fun r => 0 < r.match_count) :=
    List.mem_filter.mpr ⟨List.mem_map.mpr ⟨d, hd, rfl⟩, by simpa using hm⟩
  have hperm := List.perm_insertionSort scoreGE
    ((kb.map (scoreDoc (queryWords q))).filter (fun r => 0 < r.match_count))
  rw [List.take_of_length_le (by rw [hperm.length_eq]; exact hle)]
  exact hperm.mem_iff.mpr hmem

/-! Helper lemmas about `generate_answer`. -/

/-- A document contributes no sentence exactly when no sentence of its
content contains any query word. -/
theorem firstRelevantSentence_eq_none_iff (qw : List (List Char))
    (content : List Char) :
    firstRelevantSentence qw content = none ↔
      ∀ s ∈ splitDotSpace content, ∀ w ∈ qw, substrB w (lowerStr s) = false := by
  simp only [firstRelevantSentence, List.head?_eq_none_iff, List.map_eq_nil_iff,
    List.filter_eq_nil_iff, List.any_eq_true]
  constructor
  · intro h s hs w hw
    have := h s hs
    rw [Bool.eq_false_iff]
    intro hsub
    exact this ⟨w, hw, hsub⟩
  · rintro h s hs ⟨w, hw, hsub⟩
    rw [h s hs w hw] at hsub
    exact Bool.false_ne_true hsub

/-- The first components of the tandem accumulation are the fragments. -/
theorem contributions_map_fst (query : List Char) (rs : List SearchResult) :
    (rs.filterMap (fun r =>
      (firstRelevantSentence (queryWords query) r.document.content).map
        (fun s => (s, r.document.title)))).map Prod.fst =
      answer_fragments query rs := by
  rw [List.map_filterMap]
  unfold answer_fragments
  congr 1
  funext r
  cases firstRelevantSentence (queryWords query) r.document.content <;> rfl

/-- The second components of the tandem accumulation are the titles of the
contributing documents, in order. -/
theorem contributions_map_snd (query : List Char) (rs : List SearchResult) :
    (rs.filterMap (fun r =>
      (firstRelevantSentence (queryWords query) r.document.content).map
        (fun s => (s, r.document.title)))).map Prod.snd =
      answer_sources query rs := by
  unfold answer_sources
  induction rs with
  | nil => rfl
  | cons r rs ih =>
    cases h : firstRelevantSentence (queryWords query) r.document.content <;>
      simp [List.filterMap_cons, List.filter_cons, h, ih]

/-- On a non-empty result list, `generate_answer` returns the fixed
insufficient-content message when no fragment exists, and otherwise the
answer assembled as the spec describes. -/
theorem generate_answer_of_ne_nil (query : List Char) (rs : List SearchResult)
    (h : rs ≠ []) :
    generate_answer query rs =
      if answer_fragments query rs = [] then insufficientMsg
      else assembled_answer query rs := by
  simp only [generate_answer, contributions_map_fst, contributions_map_snd]
  rw [if_neg (by simpa using h)]
  by_cases hf : answer_fragments query rs = []
  · rw [if_pos (by simpa using hf), if_pos hf]
  · rw [if_neg (by simpa using hf), if_neg hf]
    unfold assembled_answer answer_body
    by_cases hp : ("Based on my knowledge base: ".toList ++
        List.intercalate [' '] (answer_fragments query rs)).getLast? = some '.'
    · rw [if_pos hp]
      simp [List.append_assoc]
    · rw [if_neg hp]
      simp [List.append_assoc]

/-- The assembled answer always starts with the letter of the fixed
preamble. -/
theorem assembled_answer_head (query : List Char) (rs : List SearchResult) :
    (assembled_answer query rs).head? = some 'B' := by
  unfold assembled_answer
  by_cases hp : (answer_body query rs).getLast? = some '.'
  · rw [if_pos hp]
    rfl
  · rw [if_neg hp]
    rfl

/-- The assembled answer is never the fixed not-found message. -/
theorem assembled_answer_ne_notFound (query : List Char)
    (rs : List SearchResult) : assembled_answer query rs ≠ notFoundMsg := by
  intro h
  have hh := congrArg List.head? h
  rw [assembled_answer_head] at hh
  exact absurd hh (by decide)

/-- The assembled answer is never the fixed insufficient-content message. -/
theorem assembled_answer_ne_insufficient (query : List Char)
    (rs : List SearchResult) : assembled_answer query rs ≠ insufficientMsg := by
  intro h
  have hh := congrArg List.head? h
  rw [assembled_answer_head] at hh
  exact absurd hh (by decide)

/-- No fragment arises exactly when no sentence of any retrieved document's
content contains a query word. -/
theorem answer_fragments_eq_nil_iff (query : List Char)
    (rs : List SearchResult) :
    answer_fragments query rs = [] ↔
      ∀ r ∈ rs, ∀ s ∈ splitDotSpace r.document.content,
        ∀ w ∈ queryWords query, substrB w (lowerStr s) = false := by
  unfold answer_fragments
  rw [List.filterMap_eq_nil_iff]
  constructor
  · intro h r hr
    exact (firstRelevantSentence_eq_none_iff _ _).mp (h r hr)
  · intro h r hr
    exact (firstRelevantSentence_eq_none_iff _ _).mpr (h r hr)

/-! Helper lemma about `add_document`. -/

/-- Invariant maintained by every `add_document` call: the document ids are
exactly `0, 1, ..., document_count - 1` in order, and every stored word count
is the token count of the stored content. -/
theorem addAll_inv (docs : List (List Char × List Char × List Char))
    (s : StudentRAG)
    (h1 : s.knowledge_base.map (fun d => d.id) = List.range s.document_count)
    (h2 : ∀ d ∈ s.knowledge_base, d.word_count = (splitWs d.content).length) :
    (addAll s docs).knowledge_base.map (fun d => d.id) =
      List.range (addAll s docs).document_count ∧
    ∀ d ∈ (addAll s docs).knowledge_base,
      d.word_count = (splitWs d.content).length := by
  induction docs generalizing s with
  | nil => exact ⟨h1, h2⟩
  | cons tcg rest ih =>
    obtain ⟨t, c, g⟩ := tcg
    refine ih _ ?_ ?_
    · simp only [add_document, List.map_append, h1, List.map_cons, List.map_nil,
        List.range_succ]
    · intro d hd
      simp only [add_document, List.mem_append, List.mem_singleton] at hd
      rcases hd with hd | rfl
      · exact h2 d hd
      · rfl

/-! The claims. -/

/-- C7: searching an empty knowledge base returns the empty sequence;
searching any knowledge base with a query that tokenizes to zero terms
returns the empty sequence (the guard `if query_words else 0` avoids any
division by zero); `generate_answer` on an empty result list returns the
fixed message; and `ask_question` on an empty knowledge base returns the
fixed failure record. All operations are total functions of their inputs, so
no input shape can raise. -/
theorem C7_no_failure :
    (∀ (q : List Char) (n : Nat), simple_search [] q n = []) ∧
    (∀ (kb : List Document) (q : List Char) (n : Nat), queryWords q = [] →
      simple_search kb q n = []) ∧
    (∀ q : List Char, generate_answer q [] = notFoundMsg) ∧
    (∀ q : List Char, ask_question [] q =
      { question := q, answer := noDocsMsg, sources := [],
        search_results := none, success := false }) := by
  have hempty : ∀ (q : List Char) (n : Nat), simple_search [] q n = [] := by
    intro q n
    simp [simple_search]
  refine ⟨hempty, ?_, fun _ => rfl, ?_⟩
  · intro kb q n hq
    simp only [simple_search, hq]
    have hres : (kb.map (scoreDoc [])).filter (fun r => 0 < r.match_count) = [] := by
      rw [List.filter_eq_nil_iff]
      intro r hr
      obtain ⟨d, _, rfl⟩ := List.mem_map.mp hr
      simp [scoreDoc]
    rw [hres]
    simp
  · intro q
    simp [ask_question, hempty q 3]

/-- C8: starting from a fresh retriever, after any sequence of
`add_document` calls every stored document has a distinct id, and every
stored document's word count is the number of whitespace-delimited tokens of
its content. -/
theorem C8_unique_ids_word_counts
    (docs : List (List Char × List Char × List Char)) :
    ((addAll initRAG docs).knowledge_base.map (fun d => d.id)).Nodup ∧
    ∀ d ∈ (addAll initRAG docs).knowledge_base,
      d.word_count = (splitWs d.content).length := by
  obtain ⟨h1, h2⟩ := addAll_inv docs initRAG (by rfl) (by intro d hd; cases hd)
  exact ⟨h1 ▸ List.nodup_range _, h2⟩

/-- C9: `simple_search` and `generate_answer` leave the retriever state
unchanged (the Python methods assign to no field of `self`), while
`add_document` appends exactly one document and increments the count. -/
theorem C9_frame (s : StudentRAG) (q : List Char) (n : Nat)
    (rs : List SearchResult) (t c g : List Char) :
    (searchOp s q n).1 = s ∧
    (generateOp s q rs).1 = s ∧
    (add_document s t c g).1.knowledge_base = s.knowledge_base ++
      [{ id := s.document_count, title := t, content := c, category := g,
         word_count := (splitWs c).length }] ∧
    (add_document s t c g).1.document_count = s.document_count + 1 :=
  ⟨rfl, rfl, rfl, rfl⟩

/-- C1 (counterexample): the claimed "iff" fails because the result sequence
is truncated to `max_results` — here both documents match the term "ap" but
with `max_results = 1` the later one never appears — and the claimed score
formula counts distinct matched terms, while the code counts every
occurrence of a duplicated query token: for the query "a a" the code's score
is 2/2, not the 1/2 given by the distinct count. -/
theorem C1_counterexample :
    ((∃ w ∈ queryWords "ap".toList, substrB w (doc_text exDoc1) = true) ∧
      ∀ r ∈ simple_search [exDoc0, exDoc1] "ap".toList 1,
        r.document ≠ exDoc1) ∧
    (∀ r ∈ simple_search [exDoc0] "a a".toList 1,
      r.relevance_score ≠
        mkRat r.matched_words.dedup.length (queryWords "a a".toList).length) := by
  decide

/-- C1 (amended): provided the number of matching documents is at most
`max_results`, a document appears in the result of `search` iff some query
term occurs as a substring of its lower-cased title-plus-content text; and
every returned score is (number of matching query-token occurrences) /
(total number of query tokens). -/
theorem C1_amended (kb : List Document) (q : List Char) (n : Nat)
    (hle : ((kb.map (scoreDoc (queryWords q))).filter
      (fun r => 0 < r.match_count)).length ≤ n) :
    (∀ d ∈ kb, ((∃ r ∈ simple_search kb q n, r.document = d) ↔
      ∃ w ∈ queryWords q, substrB w (doc_text d) = true)) ∧
    (∀ r ∈ simple_search kb q n,
      r.relevance_score = (r.match_count : ℚ) / ((queryWords q).length : ℚ)) := by
  constructor
  · intro d hd
    constructor
    · rintro ⟨r, hr, hrd⟩
      obtain ⟨d', _, rfl, hpos⟩ := mem_simple_search hr
      rw [scoreDoc_document] at hrd
      subst hrd
      exact (scoreDoc_match_count_pos_iff _ _).mp hpos
    · rintro ⟨w, hw, hsub⟩
      exact ⟨scoreDoc (queryWords q) d,
        mem_simple_search_of_match hle hd
          ((scoreDoc_match_count_pos_iff _ d).mpr ⟨w, hw, hsub⟩),
        scoreDoc_document _ _⟩
  · intro r hr
    obtain ⟨d, _, rfl, hpos⟩ := mem_simple_search hr
    exact scoreDoc_relevance _ _ (ne_nil_of_match_count_pos hpos)

/-- Witness for C1 (amended) at the two-document scenario, where the two
matching documents fit within `max_results = 2`. -/
theorem C1_amended_witness :
    (∀ d ∈ kbAB, ((∃ r ∈ simple_search kbAB "python language".toList 2,
      r.document = d) ↔
      ∃ w ∈ queryWords "python language".toList,
        substrB w (doc_text d) = true)) ∧
    (∀ r ∈ simple_search kbAB "python language".toList 2,
      r.relevance_score = (r.match_count : ℚ) /
        ((queryWords "python language".toList).length : ℚ)) :=
  C1_amended kbAB "python language".toList 2 (by decide)

/-- C2: with at least one query term, `search` returns at most `max_results`
entries, every returned score lies in (0, 1], the results are pairwise
sorted by non-increasing score, and entries of any equal score keep their
knowledge-base insertion order (their documents form a subsequence of the
knowledge base). -/
theorem C2_search_bounds (kb : List Document) (q : List Char) (n : Nat)
    (_hq : queryWords q ≠ []) :
    (simple_search kb q n).length ≤ n ∧
    (∀ r ∈ simple_search kb q n,
      0 < r.relevance_score ∧ r.relevance_score ≤ 1) ∧
    (simple_search kb q n).Pairwise scoreGE ∧
    ∀ s : ℚ, (((simple_search kb q n).filter
      (fun r => r.relevance_score = s)).map (fun r => r.document)).Sublist kb := by
  refine ⟨simple_search_length_le kb q n, ?_, simple_search_sorted kb q n,
    fun s => simple_search_stable kb q n s⟩
  intro r hr
  obtain ⟨d, _, rfl, hpos⟩ := mem_simple_search hr
  have hqw : queryWords q ≠ [] := ne_nil_of_match_count_pos hpos
  have hlen : 0 < (queryWords q).length := List.length_pos.mpr hqw
  have hmle : (scoreDoc (queryWords q) d).match_count ≤ (queryWords q).length := by
    rw [scoreDoc_match_count, scoreDoc_matched_words]
    exact List.length_filter_le _ _
  rw [scoreDoc_relevance _ _ hqw]
  constructor
  · exact div_pos (by exact_mod_cast hpos) (by exact_mod_cast hlen)
  · rw [div_le_one (by exact_mod_cast hlen)]
    exact_mod_cast hmle

/-- Witness for C2 at the two-document scenario. -/
theorem C2_witness :
    (simple_search kbAB "python language".toList 2).length ≤ 2 ∧
    (∀ r ∈ simple_search kbAB "python language".toList 2,
      0 < r.relevance_score ∧ r.relevance_score ≤ 1) ∧
    (simple_search kbAB "python language".toList 2).Pairwise scoreGE ∧
    ∀ s : ℚ, (((simple_search kbAB "python language".toList 2).filter
      (fun r => r.relevance_score = s)).map
        (fun r => r.document)).Sublist kbAB :=
  C2_search_bounds kbAB "python language".toList 2 (by decide)

/-- C10: every returned result's matched-words list is exactly the filter of
the query's lower-cased token list (duplicates retained, order preserved) by
substring occurrence in the document text; the match count is its length;
and the score is match count over total token count. -/
theorem C10_result_fields (kb : List Document) (q : List Char) (n : Nat)
    (r : SearchResult) (hr : r ∈ simple_search kb q n) :
    ∃ d ∈ kb, r.document = d ∧
      r.matched_words = (queryWords q).filter
        (fun w => substrB w (doc_text d)) ∧
      r.match_count = r.matched_words.length ∧
      r.relevance_score = (r.match_count : ℚ) / ((queryWords q).length : ℚ) := by
  obtain ⟨d, hd, rfl, hpos⟩ := mem_simple_search hr
  exact ⟨d, hd, rfl, rfl, rfl,
    scoreDoc_relevance _ _ (ne_nil_of_match_count_pos hpos)⟩

/-- Witness for C10 at the first result of the two-document scenario. -/
theorem C10_witness :
    ∃ d ∈ kbAB,
      (scoreDoc (queryWords "python language".toList) docA).document = d ∧
      (scoreDoc (queryWords "python language".toList) docA).matched_words =
        (queryWords "python language".toList).filter
          (fun w => substrB w (doc_text d)) ∧
      (scoreDoc (queryWords "python language".toList) docA).match_count =
        (scoreDoc (queryWords "python language".toList) docA).matched_words.length ∧
      (scoreDoc (queryWords "python language".toList) docA).relevance_score =
        ((scoreDoc (queryWords "python language".toList) docA).match_count : ℚ) /
          ((queryWords "python language".toList).length : ℚ) :=
  C10_result_fields kbAB "python language".toList 2
    (scoreDoc (queryWords "python language".toList) docA) (by decide)

/-- C3: on the knowledge base built by inserting Doc A then Doc B,
`search("python language", 2)` returns Doc A then Doc B, with scores 1 and
1/2. -/
theorem C3_two_document_scenario :
    ragAB.knowledge_base = [docA, docB] ∧
    (simple_search ragAB.knowledge_base "python language".toList 2).map
      (fun r => r.document) = [docA, docB] ∧
    (simple_search ragAB.knowledge_base "python language".toList 2).map
      (fun r => r.relevance_score) = [1, 1/2] := by
  refine ⟨by decide, by decide, ?_⟩
  have h : (simple_search ragAB.knowledge_base "python language".toList 2).map
      (fun r => r.relevance_score) = [mkRat 2 2, mkRat 1 2] := by decide
  rw [h]
  norm_num [Rat.mkRat_eq_div]

/-- C4 (counterexample): in the two-document scenario the generated answer
does not begin with "Based on my knowledge base: Python is a language." —
the first fragment is "Python is a language" without its period, because the
'. ' separator is consumed by the sentence split, and the next fragment
follows after a space. -/
theorem C4_counterexample :
    ("Based on my knowledge base: Python is a language.".toList).isPrefixOf
      (generate_answer "python language".toList
        (simple_search kbAB "python language".toList 2)) = false := by
  decide

/-- C4 (amended): the generated answer begins with "Based on my knowledge
base: Python is a language" (no period after "language") and ends with a
sources line naming both "Python Basics" and "Snakes". -/
theorem C4_amended_scenario :
    ("Based on my knowledge base: Python is a language".toList).isPrefixOf
      (generate_answer "python language".toList
        (simple_search kbAB "python language".toList 2)) = true ∧
    ("\n\n📚 Sources: Python Basics, Snakes".toList).isSuffixOf
      (generate_answer "python language".toList
        (simple_search kbAB "python language".toList 2)) = true := by
  decide

/-- C5: `generate_answer` returns the fixed not-found message iff the result
list is empty; returns the fixed insufficient-content message iff the list
is non-empty but no '. '-delimited sentence of any retrieved document's
content contains a query term as a lower-cased substring; and otherwise
returns the answer assembled from the first matching sentence of each
retrieved document in ranked order, space-joined, period-terminated if
needed, followed by the sources line of the contributing documents'
titles. -/
theorem C5_generate_answer_cases (query : List Char) (rs : List SearchResult) :
    (generate_answer query rs = notFoundMsg ↔ rs = []) ∧
    (generate_answer query rs = insufficientMsg ↔
      rs ≠ [] ∧ ∀ r ∈ rs, ∀ s ∈ splitDotSpace r.document.content,
        ∀ w ∈ queryWords query, substrB w (lowerStr s) = false) ∧
    (rs ≠ [] →
      (∃ r ∈ rs, ∃ s ∈ splitDotSpace r.document.content,
        ∃ w ∈ queryWords query, substrB w (lowerStr s) = true) →
      generate_answer query rs = assembled_answer query rs) := by
  refine ⟨⟨?_, ?_⟩, ⟨?_, ?_⟩, ?_⟩
  · intro h
    by_contra hne
    rw [generate_answer_of_ne_nil query rs hne] at h
    by_cases hf : answer_fragments query rs = []
    · rw [if_pos hf] at h
      exact absurd h (by decide)
    · rw [if_neg hf] at h
      exact assembled_answer_ne_notFound query rs h
  · rintro rfl
    rfl
  · intro h
    have hne : rs ≠ [] := by
      rintro rfl
      rw [show generate_answer query [] = notFoundMsg from rfl] at h
      exact absurd h (by decide)
    refine ⟨hne, ?_⟩
    rw [generate_answer_of_ne_nil query rs hne] at h
    by_cases hf : answer_fragments query rs = []
    · exact (answer_fragments_eq_nil_iff query rs).mp hf
    · rw [if_neg hf] at h
      exact absurd h (assembled_answer_ne_insufficient query rs)
  · rintro ⟨hne, hall⟩
    rw [generate_answer_of_ne_nil query rs hne,
      if_pos ((answer_fragments_eq_nil_iff query rs).mpr hall)]
  · intro hne hex
    have hf : answer_fragments query rs ≠ [] := by
      intro hf
      obtain ⟨r, hr, s, hs, w, hw, hsub⟩ := hex
      have hfw := (answer_fragments_eq_nil_iff query rs).mp hf r hr s hs w hw
      rw [hfw] at hsub
      exact Bool.false_ne_true hsub
    rw [generate_answer_of_ne_nil query rs hne, if_neg hf]

/-- Witness for C5 at the two-document scenario: some sentence matches, so
the answer is the assembled one. -/
theorem C5_witness :
    generate_answer "python language".toList
      (simple_search kbAB "python language".toList 2) =
    assembled_answer "python language".toList
      (simple_search kbAB "python language".toList 2) :=
  (C5_generate_answer_cases "python language".toList
    (simple_search kbAB "python language".toList 2)).2.2
    (by decide) (by decide)

/-- C6 (counterexample): `ask_question` packages the titles of all retrieved
documents, not of the contributing ones: the document titled "python" is
retrieved (its title matches) but contributes no fragment (its content has
no sentence containing "python"), yet its title is in the returned
sources. -/
theorem C6_counterexample :
    (ask_question [docT] "python".toList).success = true ∧
    (ask_question [docT] "python".toList).sources = ["python".toList] ∧
    answer_sources "python".toList (simple_search [docT] "python".toList 3) = [] ∧
    (ask_question [docT] "python".toList).sources ≠
      answer_sources "python".toList (simple_search [docT] "python".toList 3) := by
  decide

/-- C6 (amended): `ask_question` is the pure composition of `search` (with
`max_results = 3`) and `generate_answer`; the returned structure carries the
question, the generated answer, the titles of the retrieved documents, the
raw search results, and a success flag true iff the search produced at least
one result; with zero results it is the fixed failure record with the fixed
message and empty sources. -/
theorem C6_amended (kb : List Document) (q : List Char) :
    (ask_question kb q).question = q ∧
    (ask_question kb q).success = !(simple_search kb q 3).isEmpty ∧
    ((simple_search kb q 3).isEmpty = true →
      ask_question kb q =
        { question := q, answer := noDocsMsg, sources := [],
          search_results := none, success := false }) ∧
    ((simple_search kb q 3).isEmpty = false →
      (ask_question kb q).answer = generate_answer q (simple_search kb q 3) ∧
      (ask_question kb q).sources =
        (simple_search kb q 3).map (fun r => r.document.title) ∧
      (ask_question kb q).search_results = some (simple_search kb q 3)) := by
  by_cases h : (simple_search kb q 3).isEmpty = true
  · refine ⟨?_, ?_, ?_, ?_⟩ <;> simp [ask_question, h]
  · rw [Bool.not_eq_true] at h
    refine ⟨?_, ?_, ?_, ?_⟩ <;> simp [ask_question, h, List.map_map, Function.comp]

/-- Witness for C6 (amended) on a knowledge base whose single document is
retrieved. -/
theorem C6_amended_witness :
    (ask_question [docT] "python".toList).answer =
      generate_answer "python".toList (simple_search [docT] "python".toList 3) ∧
    (ask_question [docT] "python".toList).sources =
      (simple_search [docT] "python".toList 3).map (fun r => r.document.title) ∧
    (ask_question [docT] "python".toList).search_results =
      some (simple_search [docT] "python".toList 3) :=
  (C6_amended [docT] "python".toList).2.2.2 (by decide)

/-- Witness for C7 at a whitespace-only query over a non-empty knowledge
base. -/
theorem C7_witness : simple_search [docT] "   ".toList 5 = [] :=
  C7_no_failure.2.1 [docT] "   ".toList 5 (by decide)

end RagDemo
